import Mathlib

/-!
# Verification of the movie-app search/browse flow

Shallow embedding of `src/App.jsx` (the movie discovery page): the React
state hooks become a state record, the catalog HTTP response and the
trending-store responses become explicit environment parameters, and the
async handlers (`fetchMovies`, `loadTrendingMovies`, `handleScroll`, the
`useEffect` callbacks) become pure state transformers that also emit a
trace of observable events (catalog requests, trending-store calls,
console error logs).
-/

namespace MovieApp

/-- A movie as consumed from the catalog API response (`data.results[]`).
Only the identity matters for the properties proved here. -/
structure Movie where
  id : Nat
  title : String
deriving Repr, DecidableEq

/-- A trending record as stored in the external document store
(fields per the database schema: searchTerm, count, movie_id, poster_url). -/
structure TrendingRecord where
  searchTerm : String
  hit_count : Nat
  movie_id : Nat
  poster_url : String
deriving Repr, DecidableEq

/-- The React state of `App`: `useState` hooks `movieList`, `errorMessage`,
`isLoading`, `trendingMovies`, `page`, `hasMore`.  (`searchTerm` and
`debouncedSearchTerm` are passed as explicit arguments to the transitions
that read them.) -/
structure AppState where
  movieList : List Movie
  errorMessage : String
  isLoading : Bool
  trendingMovies : List TrendingRecord
  page : Nat
  hasMore : Bool
deriving Repr, DecidableEq

/-- The environment's answer to one catalog fetch:
* `httpError` — the network request rejected or `!response.ok` (non-2xx);
  both paths throw `Error('Failed to fetch movies')` into the catch block;
* `apiFailure err` — the JSON carried `Response === 'False'` with optional
  `Error` field (`none` models an absent field, `some ""` a falsy empty one);
* `success results page totalPages` — a normal payload. -/
inductive CatalogResponse where
  | httpError
  | apiFailure (err : Option String)
  | success (results : List Movie) (page : Nat) (totalPages : Nat)
deriving Repr, DecidableEq

/-- Observable events emitted by a transition, in program order. -/
inductive Ev where
  | catalogRequest (query : String) (pageNumber : Nat)
  | updateSearchCountCall (term : String) (movie : Movie)
  | getTrendingCall
  | logError (msg : String)
deriving Repr, DecidableEq

/-- `fetchMovies` preamble: `setIsLoading(true); setErrorMessage('')`. -/
def fetchStart (s : AppState) : AppState :=
  { s with isLoading := true, errorMessage := "" }

/-- `data.Error || 'Failed to fetch movies'` — JS `||` takes the default for
an absent or falsy (empty-string) `Error` field. -/
def apiErrorMessage : Option String → String
  | some e => if e = "" then "Failed to fetch movies" else e
  | none => "Failed to fetch movies"

/-- The page-merge policy of `fetchMovies`:
`if (pageNumber === 1) setMovieList(data.results || []) else
setMovieList(prev => [...prev, ...(data.results || [])])`. -/
def mergePage (pageNumber : Nat) (results : List Movie) (s : AppState) : AppState :=
  if pageNumber = 1 then { s with movieList := results }
  else { s with movieList := s.movieList ++ results }

/-- State after the success-path updates that precede the trending branch:
`setHasMore(data.page < data.total_pages)` then the page merge. -/
def successState (pageNumber : Nat) (results : List Movie) (p tp : Nat)
    (s : AppState) : AppState :=
  mergePage pageNumber results { fetchStart s with hasMore := decide (p < tp) }

/-- `loadTrendingMovies` from App.jsx: awaits `getTrendingMovies()` (its
outcome is the parameter `tr`); on success stores the list in
`trendingMovies`, on failure logs `console.error` and changes nothing. -/
def loadTrendingMovies (tr : Except String (List TrendingRecord))
    (s : AppState) : AppState × List Ev :=
  match tr with
  | .ok movies => ({ s with trendingMovies := movies }, [Ev.getTrendingCall])
  | .error e =>
      (s, [Ev.getTrendingCall, Ev.logError ("Error fetching trending movies: " ++ e)])

/-- Modelled from the spec: `updateSearchCount` is exported by
`src/appwrite.js`, which is not present under `src/`.  Per the spec,
"Failure in either operation is logged and otherwise swallowed", so a
failing update (`updFails = true`) logs an error and returns normally; it
never propagates an exception to its caller `fetchMovies`. -/
def updateSearchCount (term : String) (movie : Movie) (updFails : Bool) : List Ev :=
  if updFails then
    [Ev.updateSearchCountCall term movie, Ev.logError "updateSearchCount failed"]
  else
    [Ev.updateSearchCountCall term movie]

/-- `fetchMovies(query, pageNumber)` from App.jsx, with the catalog response
`resp`, the trending-store read outcome `tr` and the trending-store write
outcome `updFails` supplied by the environment.  Returns the updated state
and the emitted event trace.  The `finally` block (`setIsLoading(false)`)
is applied on every path. -/
def fetchMovies (query : String) (pageNumber : Nat) (resp : CatalogResponse)
    (tr : Except String (List TrendingRecord)) (updFails : Bool)
    (s : AppState) : AppState × List Ev :=
  match resp with
  | .httpError =>
      ({ fetchStart s with
          errorMessage := "Error fetching movies. Please try again later.",
          isLoading := false },
       [Ev.catalogRequest query pageNumber,
        Ev.logError "Error fetching movies: Error: Failed to fetch movies"])
  | .apiFailure err =>
      ({ fetchStart s with
          errorMessage := apiErrorMessage err,
          movieList := [],
          isLoading := false },
       [Ev.catalogRequest query pageNumber])
  | .success results p tp =>
      match results with
      | [] =>
          ({ successState pageNumber [] p tp s with isLoading := false },
           [Ev.catalogRequest query pageNumber])
      | m :: ms =>
          if query ≠ "" ∧ pageNumber = 1 then
            ({ (loadTrendingMovies tr (successState pageNumber (m :: ms) p tp s)).1 with
                isLoading := false },
             Ev.catalogRequest query pageNumber ::
               (updateSearchCount query m updFails ++
                (loadTrendingMovies tr (successState pageNumber (m :: ms) p tp s)).2))
          else
            ({ successState pageNumber (m :: ms) p tp s with isLoading := false },
             [Ev.catalogRequest query pageNumber])

/-- The `useState` initial values of `App`. -/
def initState : AppState :=
  { movieList := [], errorMessage := "", isLoading := false,
    trendingMovies := [], page := 1, hasMore := true }

/-- The synchronous part of the `[debouncedSearchTerm]` effect:
`setPage(1); setHasMore(true)` before the fetch is issued. -/
def debouncedTermEffect (s : AppState) : AppState :=
  { s with page := 1, hasMore := true }

/-- The whole `[debouncedSearchTerm]` effect: reset pagination, then
`fetchMovies(debouncedSearchTerm, 1)`. -/
def onDebouncedTermChange (term : String) (resp : CatalogResponse)
    (tr : Except String (List TrendingRecord)) (updFails : Bool)
    (s : AppState) : AppState × List Ev :=
  fetchMovies term 1 resp tr updFails (debouncedTermEffect s)

/-- The `[page]` effect: `if (page > 1) fetchMovies(debouncedSearchTerm, page)`. -/
def pageEffect (query : String) (resp : CatalogResponse)
    (tr : Except String (List TrendingRecord)) (updFails : Bool)
    (s : AppState) : AppState × List Ev :=
  if 1 < s.page then fetchMovies query s.page resp tr updFails s else (s, [])

/-- Initial load of the app: on mount, `debouncedSearchTerm` is `''`, the
`[page]` effect fires with `page = 1` (a no-op) and the
`[debouncedSearchTerm]` effect fires, calling `fetchMovies('', 1)`.  No
mount effect calls `loadTrendingMovies` directly. -/
def initialMount (resp : CatalogResponse)
    (tr : Except String (List TrendingRecord)) (updFails : Bool) :
    AppState × List Ev :=
  onDebouncedTermChange "" resp tr updFails initState

/-- The scroll geometry read by `handleScroll`: `window.innerHeight`,
`document.documentElement.scrollTop`, `document.documentElement.offsetHeight`. -/
structure ScrollEnv where
  innerHeight : Int
  scrollTop : Int
  offsetHeight : Int
deriving Repr, DecidableEq

/-- `handleScroll` from App.jsx: return early if loading or no more pages;
otherwise increment `page` when
`innerHeight + scrollTop >= offsetHeight - 300`. -/
def handleScroll (env : ScrollEnv) (s : AppState) : AppState :=
  if s.isLoading = true ∨ s.hasMore = false then s
  else if env.offsetHeight - 300 ≤ env.innerHeight + env.scrollTop then
    { s with page := s.page + 1 }
  else s

/-- One scroll event end to end: `handleScroll` runs, and the `[page]`
effect re-fires iff the page counter changed. -/
def scrollStep (env : ScrollEnv) (query : String) (resp : CatalogResponse)
    (tr : Except String (List TrendingRecord)) (updFails : Bool)
    (s : AppState) : AppState × List Ev :=
  if (handleScroll env s).page = s.page then (handleScroll env s, [])
  else pageEffect query resp tr updFails (handleScroll env s)

/-- Number of events in a trace satisfying `p`. -/
def countEv (p : Ev → Bool) (l : List Ev) : Nat := (l.filter p).length

/-- Recognises a trending-record upsert call. -/
def isUpdateCall : Ev → Bool
  | .updateSearchCountCall _ _ => true
  | _ => false

/-- Recognises a trending top-list retrieval call. -/
def isGetTrending : Ev → Bool
  | .getTrendingCall => true
  | _ => false

/-- A concrete movie for witnesses and counterexamples. -/
def inception : Movie := { id := 27205, title := "Inception" }

/-- A concrete idle state that already displays one movie. -/
def stateWithMovies : AppState :=
  { movieList := [inception], errorMessage := "", isLoading := false,
    trendingMovies := [], page := 1, hasMore := true }

/-! ## Helper lemmas -/

@[simp] theorem loadTrendingMovies_fst_movieList
    (tr : Except String (List TrendingRecord)) (s : AppState) :
    (loadTrendingMovies tr s).1.movieList = s.movieList := by
  cases tr <;> rfl

@[simp] theorem loadTrendingMovies_fst_errorMessage
    (tr : Except String (List TrendingRecord)) (s : AppState) :
    (loadTrendingMovies tr s).1.errorMessage = s.errorMessage := by
  cases tr <;> rfl

@[simp] theorem loadTrendingMovies_fst_page
    (tr : Except String (List TrendingRecord)) (s : AppState) :
    (loadTrendingMovies tr s).1.page = s.page := by
  cases tr <;> rfl

@[simp] theorem loadTrendingMovies_fst_hasMore
    (tr : Except String (List TrendingRecord)) (s : AppState) :
    (loadTrendingMovies tr s).1.hasMore = s.hasMore := by
  cases tr <;> rfl

@[simp] theorem loadTrendingMovies_error_fst (e : String) (s : AppState) :
    (loadTrendingMovies (.error e) s).1 = s := rfl

@[simp] theorem loadTrendingMovies_snd_count_get
    (tr : Except String (List TrendingRecord)) (s : AppState) :
    countEv isGetTrending (loadTrendingMovies tr s).2 = 1 := by
  cases tr <;> rfl

@[simp] theorem loadTrendingMovies_snd_count_upd
    (tr : Except String (List TrendingRecord)) (s : AppState) :
    countEv isUpdateCall (loadTrendingMovies tr s).2 = 0 := by
  cases tr <;> rfl

@[simp] theorem updateSearchCount_count_upd (q : String) (m : Movie) (b : Bool) :
    countEv isUpdateCall (updateSearchCount q m b) = 1 := by
  cases b <;> rfl

@[simp] theorem updateSearchCount_count_get (q : String) (m : Movie) (b : Bool) :
    countEv isGetTrending (updateSearchCount q m b) = 0 := by
  cases b <;> rfl

@[simp] theorem mergePage_errorMessage (pn : Nat) (results : List Movie) (s : AppState) :
    (mergePage pn results s).errorMessage = s.errorMessage := by
  unfold mergePage; split <;> rfl

@[simp] theorem mergePage_hasMore (pn : Nat) (results : List Movie) (s : AppState) :
    (mergePage pn results s).hasMore = s.hasMore := by
  unfold mergePage; split <;> rfl

@[simp] theorem successState_errorMessage (pn : Nat) (results : List Movie)
    (p tp : Nat) (s : AppState) :
    (successState pn results p tp s).errorMessage = "" := by
  unfold successState; simp [fetchStart]

@[simp] theorem successState_hasMore (pn : Nat) (results : List Movie)
    (p tp : Nat) (s : AppState) :
    (successState pn results p tp s).hasMore = decide (p < tp) := by
  unfold successState; simp [fetchStart]

theorem successState_movieList_one (results : List Movie) (p tp : Nat) (s : AppState) :
    (successState 1 results p tp s).movieList = results := by
  unfold successState mergePage; simp

theorem successState_movieList_next (pn : Nat) (hpn : pn ≠ 1)
    (results : List Movie) (p tp : Nat) (s : AppState) :
    (successState pn results p tp s).movieList = s.movieList ++ results := by
  unfold successState mergePage
  simp [hpn, fetchStart]

@[simp] theorem countEv_nil (p : Ev → Bool) : countEv p [] = 0 := rfl

theorem countEv_cons (p : Ev → Bool) (e : Ev) (l : List Ev) :
    countEv p (e :: l) = (if p e then 1 else 0) + countEv p l := by
  unfold countEv
  by_cases h : p e <;> simp [h, List.filter_cons, Nat.add_comm]

theorem countEv_append (p : Ev → Bool) (l l' : List Ev) :
    countEv p (l ++ l') = countEv p l + countEv p l' := by
  unfold countEv
  simp

@[simp] theorem countEv_request_upd (q : String) (pn : Nat) :
    countEv isUpdateCall [Ev.catalogRequest q pn] = 0 := rfl

@[simp] theorem countEv_request_get (q : String) (pn : Nat) :
    countEv isGetTrending [Ev.catalogRequest q pn] = 0 := rfl

theorem fetchMovies_snd_head (q : String) (pn : Nat) (resp : CatalogResponse)
    (tr : Except String (List TrendingRecord)) (updFails : Bool) (s : AppState) :
    (fetchMovies q pn resp tr updFails s).2.head? = some (Ev.catalogRequest q pn) := by
  cases resp with
  | httpError => rfl
  | apiFailure err => rfl
  | success results p tp =>
      cases results with
      | nil => rfl
      | cons m ms =>
          simp only [fetchMovies]
          split <;> rfl

/-! ## Claim theorems -/

/-- C1: when the catalog request itself succeeds, `fetchMovies` ends with an
empty user-visible error message no matter how the trending-store operations
fare (`tr` may be an error, `updFails` may be true); and a failing trending
top-list retrieval leaves the whole state unchanged (the failure is only
logged). -/
theorem trending_failure_swallowed (q : String) (pn : Nat) (results : List Movie)
    (p tp : Nat) (tr : Except String (List TrendingRecord)) (updFails : Bool)
    (s : AppState) (e : String) :
    (fetchMovies q pn (.success results p tp) tr updFails s).1.errorMessage = "" ∧
    (loadTrendingMovies (.error e) s).1 = s := by
  refine ⟨?_, rfl⟩
  unfold fetchMovies
  cases results with
  | nil => simp
  | cons m ms =>
      by_cases h : q ≠ "" ∧ pn = 1 <;> simp [h]

/-- C2 counterexample: a transport-level (HTTP) failure on a fresh page-1
search does not clear the movie list — the catch block never touches
`movieList` — contradicting the claim that a fresh search clears it. -/
theorem http_error_page1_list_not_cleared :
    (fetchMovies "batman" 1 .httpError (.ok []) false stateWithMovies).1.movieList
        = [inception] ∧
    [inception] ≠ ([] : List Movie) := by
  exact ⟨rfl, by decide⟩

/-- C2 (amended): on a transport/HTTP failure the error message is set to the
generic fetch-failure text and the movie list is left unchanged in every
case, page-1 fresh searches included. -/
theorem http_error_message_and_list (q : String) (pn : Nat)
    (tr : Except String (List TrendingRecord)) (updFails : Bool) (s : AppState) :
    (fetchMovies q pn .httpError tr updFails s).1.errorMessage =
        "Error fetching movies. Please try again later." ∧
    (fetchMovies q pn .httpError tr updFails s).1.movieList = s.movieList := by
  exact ⟨rfl, rfl⟩

/-- C4: a successful page-1 response replaces the displayed list with the
response's results; a successful response for a later page appends the
results to the prior list in order. -/
theorem page_merge_semantics (q : String) (pn p tp : Nat) (results : List Movie)
    (tr : Except String (List TrendingRecord)) (updFails : Bool) (s : AppState) :
    (pn = 1 →
      (fetchMovies q pn (.success results p tp) tr updFails s).1.movieList = results) ∧
    (1 < pn →
      (fetchMovies q pn (.success results p tp) tr updFails s).1.movieList =
        s.movieList ++ results) := by
  constructor
  · intro hpn
    subst hpn
    cases results with
    | nil => simp [fetchMovies, successState_movieList_one]
    | cons m ms =>
        simp only [fetchMovies]
        split <;> simp [successState_movieList_one]
  · intro hpn
    have hne : pn ≠ 1 := by omega
    unfold fetchMovies
    cases results with
    | nil => simp [successState_movieList_next pn hne]
    | cons m ms =>
        have h : ¬ (q ≠ "" ∧ pn = 1) := by simp [hne]
        simp [h, successState_movieList_next pn hne]

/-- C4 witness: page 1 replaces, page 2 appends, at concrete inputs. -/
theorem page_merge_semantics_witness :
    (fetchMovies "batman" 1 (.success [inception] 1 5) (.ok []) false
        stateWithMovies).1.movieList = [inception] ∧
    (fetchMovies "batman" 2 (.success [inception] 2 5) (.ok []) false
        stateWithMovies).1.movieList = [inception, inception] := by
  constructor
  · exact (page_merge_semantics "batman" 1 1 5 [inception] (.ok []) false
      stateWithMovies).1 rfl
  · have h := (page_merge_semantics "batman" 2 2 5 [inception] (.ok []) false
      stateWithMovies).2 (by decide)
    simpa [stateWithMovies] using h

/-- C3 counterexample: on initial load the app issues `fetchMovies('', 1)`
and no mount effect calls `loadTrendingMovies`, so even with a successful
catalog response the trending top-list retrieval is triggered zero times,
not once. -/
theorem initial_load_no_trending_fetch :
    countEv isGetTrending
        (initialMount (.success [inception] 1 5) (.ok []) false).2 = 0 ∧
    countEv isGetTrending
        (initialMount (.success [inception] 1 5) (.ok []) false).2 ≠ 1 := by
  constructor <;> decide

/-- C3 (amended): within any one `fetchMovies` run the trending top-list
retrieval is triggered exactly as many times as the trending-record update
(once, immediately after it, when the update happens; zero times otherwise),
and it is not triggered at all on initial load of the app. -/
theorem trending_refresh_with_update (q : String) (pn : Nat)
    (resp : CatalogResponse) (tr : Except String (List TrendingRecord))
    (updFails : Bool) (s : AppState) :
    countEv isGetTrending (fetchMovies q pn resp tr updFails s).2 =
      countEv isUpdateCall (fetchMovies q pn resp tr updFails s).2 ∧
    countEv isGetTrending (initialMount resp tr updFails).2 = 0 := by
  constructor
  · cases resp with
    | httpError => rfl
    | apiFailure err => rfl
    | success results p tp =>
        cases results with
        | nil => rfl
        | cons m ms =>
            simp only [fetchMovies]
            split
            · simp [countEv_cons, countEv_append, isGetTrending, isUpdateCall]
            · rfl
  · cases resp with
    | httpError => rfl
    | apiFailure err => rfl
    | success results p tp =>
        cases results with
        | nil => rfl
        | cons m ms =>
            simp [initialMount, onDebouncedTermChange, fetchMovies, countEv_cons,
              isGetTrending]

/-- C5: in a successful fetch, exactly one trending-record upsert and one
trending-list refresh happen iff the search term is non-empty, the results
are non-empty and the requested page is 1; otherwise neither happens; and
when they do happen, the upsert is keyed to the first result movie. -/
theorem upsert_on_fresh_search (q : String) (pn p tp : Nat) (results : List Movie)
    (tr : Except String (List TrendingRecord)) (updFails : Bool) (s : AppState) :
    (countEv isUpdateCall (fetchMovies q pn (.success results p tp) tr updFails s).2 =
      if q ≠ "" ∧ results ≠ [] ∧ pn = 1 then 1 else 0) ∧
    (countEv isGetTrending (fetchMovies q pn (.success results p tp) tr updFails s).2 =
      if q ≠ "" ∧ results ≠ [] ∧ pn = 1 then 1 else 0) ∧
    (∀ m ms, results = m :: ms → q ≠ "" → pn = 1 →
      Ev.updateSearchCountCall q m ∈
        (fetchMovies q pn (.success results p tp) tr updFails s).2) := by
  refine ⟨?_, ?_, ?_⟩
  · cases results with
    | nil => simp [fetchMovies]
    | cons m ms =>
        by_cases h : q ≠ "" ∧ pn = 1
        · simp [fetchMovies, h, countEv_cons, countEv_append, isUpdateCall]
        · have h' : ¬ (q ≠ "" ∧ m :: ms ≠ [] ∧ pn = 1) := by
            simpa using h
          simp [fetchMovies, h, h']
  · cases results with
    | nil => simp [fetchMovies]
    | cons m ms =>
        by_cases h : q ≠ "" ∧ pn = 1
        · simp [fetchMovies, h, countEv_cons, countEv_append, isGetTrending]
        · have h' : ¬ (q ≠ "" ∧ m :: ms ≠ [] ∧ pn = 1) := by
            simpa using h
          simp [fetchMovies, h, h']
  · rintro m ms rfl hq rfl
    simp only [fetchMovies, hq, and_self, if_true, ne_eq, not_false_iff, true_and]
    cases updFails <;> simp [updateSearchCount, hq]

/-- C5 witness: the "batman" scenario — a page-1 search with one result emits
one upsert keyed to that movie and one trending refresh. -/
theorem upsert_on_fresh_search_witness :
    (countEv isUpdateCall
        (fetchMovies "batman" 1 (.success [inception] 1 5) (.ok []) false
          initState).2 = 1) ∧
    Ev.updateSearchCountCall "batman" inception ∈
      (fetchMovies "batman" 1 (.success [inception] 1 5) (.ok []) false
        initState).2 := by
  refine ⟨?_, ?_⟩
  · have h := (upsert_on_fresh_search "batman" 1 1 5 [inception] (.ok []) false
      initState).1
    simpa using h
  · exact (upsert_on_fresh_search "batman" 1 1 5 [inception] (.ok []) false
      initState).2.2 inception [] rfl (by decide) rfl

/-- C6: a response-level failure (`Response === 'False'`) sets the error
message to the payload's message when one is provided, to the default
`'Failed to fetch movies'` when it is absent, and clears the movie list. -/
theorem api_failure_message_and_clear (q : String) (pn : Nat) (err : Option String)
    (tr : Except String (List TrendingRecord)) (updFails : Bool) (s : AppState) :
    (∀ e, err = some e → e ≠ "" →
      (fetchMovies q pn (.apiFailure err) tr updFails s).1.errorMessage = e) ∧
    (err = none →
      (fetchMovies q pn (.apiFailure err) tr updFails s).1.errorMessage =
        "Failed to fetch movies") ∧
    (fetchMovies q pn (.apiFailure err) tr updFails s).1.movieList = [] := by
  refine ⟨?_, ?_, rfl⟩
  · rintro e rfl he
    simp [fetchMovies, apiErrorMessage, he]
  · rintro rfl
    rfl

/-- C6 witness: the `{Response:"False", Error:"Invalid API key"}` scenario. -/
theorem api_failure_witness :
    (fetchMovies "batman" 1 (.apiFailure (some "Invalid API key")) (.ok []) false
        stateWithMovies).1.errorMessage = "Invalid API key" ∧
    (fetchMovies "batman" 1 (.apiFailure (some "Invalid API key")) (.ok []) false
        stateWithMovies).1.movieList = [] := by
  exact ⟨(api_failure_message_and_clear "batman" 1 (some "Invalid API key") (.ok [])
      false stateWithMovies).1 "Invalid API key" rfl (by decide),
    (api_failure_message_and_clear "batman" 1 (some "Invalid API key") (.ok [])
      false stateWithMovies).2.2⟩

/-- C7: after any successful catalog response, `hasMore` holds iff the
response's page number is strictly below its total page count. -/
theorem hasMore_iff_page_lt_total (q : String) (pn p tp : Nat)
    (results : List Movie) (tr : Except String (List TrendingRecord))
    (updFails : Bool) (s : AppState) :
    (fetchMovies q pn (.success results p tp) tr updFails s).1.hasMore =
      decide (p < tp) := by
  cases results with
  | nil => simp [fetchMovies]
  | cons m ms =>
      simp only [fetchMovies]
      split <;> simp

/-- C8: the `[debouncedSearchTerm]` effect resets the page to 1, and the error
message is cleared (by the `fetchMovies` preamble) before the catalog request
for page 1 of the new term is issued — that request is the first observable
event of the effect. -/
theorem term_change_resets_page_and_error (term : String) (resp : CatalogResponse)
    (tr : Except String (List TrendingRecord)) (updFails : Bool) (s : AppState) :
    (debouncedTermEffect s).page = 1 ∧
    (fetchStart (debouncedTermEffect s)).errorMessage = "" ∧
    (onDebouncedTermChange term resp tr updFails s).2.head? =
      some (Ev.catalogRequest term 1) := by
  exact ⟨rfl, rfl, fetchMovies_snd_head term 1 resp tr updFails
    (debouncedTermEffect s)⟩

/-- C9: a scroll event with a fetch in flight or `hasMore` false changes
nothing and issues no fetch; otherwise, when the viewport bottom is within
300px of the document bottom the page counter advances by exactly one and a
fetch for that page with the current debounced term is issued, and when it is
farther away nothing happens. -/
theorem scroll_gating_and_increment (env : ScrollEnv) (q : String)
    (resp : CatalogResponse) (tr : Except String (List TrendingRecord))
    (updFails : Bool) (s : AppState) :
    (s.isLoading = true ∨ s.hasMore = false →
      (scrollStep env q resp tr updFails s).1 = s ∧
      (scrollStep env q resp tr updFails s).2 = []) ∧
    (s.isLoading = false → s.hasMore = true → 1 ≤ s.page →
      (env.offsetHeight - 300 ≤ env.innerHeight + env.scrollTop →
        (handleScroll env s).page = s.page + 1 ∧
        (scrollStep env q resp tr updFails s).2.head? =
          some (Ev.catalogRequest q (s.page + 1))) ∧
      (env.innerHeight + env.scrollTop < env.offsetHeight - 300 →
        (scrollStep env q resp tr updFails s).1 = s ∧
        (scrollStep env q resp tr updFails s).2 = [])) := by
  constructor
  · intro h
    have hs : handleScroll env s = s := by
      unfold handleScroll
      rw [if_pos h]
    unfold scrollStep
    rw [hs]
    simp
  · intro hl hm hp
    have hgate : ¬ (s.isLoading = true ∨ s.hasMore = false) := by
      simp [hl, hm]
    constructor
    · intro hnear
      have hs : handleScroll env s = { s with page := s.page + 1 } := by
        unfold handleScroll
        rw [if_neg hgate, if_pos hnear]
      refine ⟨by rw [hs], ?_⟩
      unfold scrollStep
      rw [hs]
      have hne : ({ s with page := s.page + 1 } : AppState).page ≠ s.page := by
        simp
      rw [if_neg hne]
      unfold pageEffect
      have hgt : 1 < ({ s with page := s.page + 1 } : AppState).page := by
        simp; omega
      rw [if_pos hgt]
      exact fetchMovies_snd_head q (s.page + 1) resp tr updFails _
    · intro hfar
      have hs : handleScroll env s = s := by
        unfold handleScroll
        rw [if_neg hgate, if_neg (by omega)]
      unfold scrollStep
      rw [hs]
      simp

/-- C9 witness: near the bottom with an idle state the page advances from 1
to 2 and a page-2 fetch is issued; with a fetch in flight nothing happens. -/
theorem scroll_gating_witness :
    (handleScroll ⟨800, 1000, 2000⟩ stateWithMovies).page = 2 ∧
    (scrollStep ⟨800, 1000, 2000⟩ "batman" (.success [inception] 2 5) (.ok []) false
        stateWithMovies).2.head? = some (Ev.catalogRequest "batman" 2) ∧
    (scrollStep ⟨800, 1000, 2000⟩ "batman" (.success [inception] 2 5) (.ok []) false
        { stateWithMovies with isLoading := true }).2 = [] := by
  have h := ((scroll_gating_and_increment ⟨800, 1000, 2000⟩ "batman"
      (.success [inception] 2 5) (.ok []) false stateWithMovies).2 rfl rfl
      (by decide)).1 (by decide)
  have h0 := (scroll_gating_and_increment ⟨800, 1000, 2000⟩ "batman"
      (.success [inception] 2 5) (.ok []) false
      { stateWithMovies with isLoading := true }).1 (Or.inl rfl)
  exact ⟨h.1, h.2, h0.2⟩

/-- C10: a response-level failure changes only the error message and the
movie list: the page number, the `hasMore` flag and the trending list keep
their prior values, the loading flag is cleared, and no trending-record
upsert or trending-list refresh occurs. -/
theorem api_failure_frame (q : String) (pn : Nat) (err : Option String)
    (tr : Except String (List TrendingRecord)) (updFails : Bool) (s : AppState) :
    (fetchMovies q pn (.apiFailure err) tr updFails s).1.page = s.page ∧
    (fetchMovies q pn (.apiFailure err) tr updFails s).1.hasMore = s.hasMore ∧
    (fetchMovies q pn (.apiFailure err) tr updFails s).1.trendingMovies =
      s.trendingMovies ∧
    (fetchMovies q pn (.apiFailure err) tr updFails s).1.isLoading = false ∧
    countEv isUpdateCall (fetchMovies q pn (.apiFailure err) tr updFails s).2 = 0 ∧
    countEv isGetTrending (fetchMovies q pn (.apiFailure err) tr updFails s).2 = 0 := by
  exact ⟨rfl, rfl, rfl, rfl, rfl, rfl⟩

end MovieApp
